import Mathlib

/-!
# ST7565 display driver (`drivers/display/display_st7565.c`)

A shallow embedding of the driver.  The driver talks to the outside world through
three primitives, `gpio_pin_set`, `k_sleep` and `spi_write`; every call of one of them
is appended to a trace.  The static framebuffer `st7565_framebuffer[1024]` is a list of
bytes.  Accesses outside an array and signed overflow are undefined behaviour in C and
are modelled by `none`.
-/

namespace St7565

/-! ## Constants -/

/-- Value of `EPERM` in `errno.h`. -/
def EPERM : Int := 1

/-- Value of `EIO` in `errno.h`. -/
def EIO : Int := 5

/-- Value of `ENOTSUP` in `errno.h`. -/
def ENOTSUP : Int := 134

/-- The opcode macros of `display_st7565.h`.  The header is not part of the sources, so
the driver is modelled over an arbitrary opcode table. -/
structure st7565_cmds where
  ST7565_CMD_DISPLAY_OFF : Nat
  ST7565_CMD_DISPLAY_ON : Nat
  ST7565_CMD_SET_DISP_START_LINE : Nat
  ST7565_CMD_SET_PAGE : Nat
  ST7565_CMD_SET_COLUMN_UPPER : Nat
  ST7565_CMD_SET_COLUMN_LOWER : Nat
  ST7565_CMD_SET_ADC_NORMAL : Nat
  ST7565_CMD_SET_ALLPTS_NORMAL : Nat
  ST7565_CMD_SET_BIAS_7 : Nat
  ST7565_CMD_INTERNAL_RESET : Nat
  ST7565_CMD_SET_COM_REVERSE : Nat
  ST7565_CMD_SET_POWER_CONTROL : Nat
  ST7565_CMD_SET_RESISTOR_RATIO : Nat
  ST7565_CMD_SET_VOLUME_FIRST : Nat
  ST7565_CMD_SET_VOLUME_SECOND : Nat
  deriving DecidableEq, Repr

/-- One opcode table on which the model is evaluated: the instruction codes of the
ST7565 data sheet. -/
def datasheet_cmds : st7565_cmds where
  ST7565_CMD_DISPLAY_OFF := 0xAE
  ST7565_CMD_DISPLAY_ON := 0xAF
  ST7565_CMD_SET_DISP_START_LINE := 0x40
  ST7565_CMD_SET_PAGE := 0xB0
  ST7565_CMD_SET_COLUMN_UPPER := 0x10
  ST7565_CMD_SET_COLUMN_LOWER := 0x00
  ST7565_CMD_SET_ADC_NORMAL := 0xA0
  ST7565_CMD_SET_ALLPTS_NORMAL := 0xA4
  ST7565_CMD_SET_BIAS_7 := 0xA3
  ST7565_CMD_INTERNAL_RESET := 0xE2
  ST7565_CMD_SET_COM_REVERSE := 0xC8
  ST7565_CMD_SET_POWER_CONTROL := 0x28
  ST7565_CMD_SET_RESISTOR_RATIO := 0x20
  ST7565_CMD_SET_VOLUME_FIRST := 0x81
  ST7565_CMD_SET_VOLUME_SECOND := 0x00

/-- `const uint8_t pagemap[] = { 0, 1, 2, 3, 4, 5, 6, 7 };` -/
def pagemap : List Nat := [0, 1, 2, 3, 4, 5, 6, 7]

/-- `#define ST7565_STARTBYTES 4` -/
def ST7565_STARTBYTES : Nat := 4

/-- `sizeof(st7565_framebuffer)` for `static uint8_t st7565_framebuffer[1024];` -/
def FRAMEBUFFER_SIZE : Nat := 1024

/-! ## Data model -/

/-- The two output lines the driver drives with `gpio_pin_set`. -/
inductive Line
  | cmd_data
  | reset
  deriving DecidableEq, Repr

/-- One call of a platform primitive, with its arguments.  The calls that acquire
resources, `device_get_binding` and `gpio_pin_configure`, are not recorded: their
answers are part of `Platform`. -/
inductive Event
  | gpio_pin_set (line : Line) (value : Nat)
  | k_sleep (ms : Nat)
  | spi_write (buf : List Nat)
  deriving DecidableEq, Repr

/-- What the platform answers to the driver: whether `device_get_binding` finds each
device, the return code of each `gpio_pin_configure`, and the return code of the
`n`-th call of `spi_write`. -/
structure Platform where
  spi_dev : Bool
  reset_gpio : Bool
  reset_configure : Int
  cmd_data_gpio : Bool
  cmd_data_configure : Int
  spi_write_rc : Nat → Int

/-- The configuration fields of `struct st7565_data` (the device handles are part of
`Platform`). -/
structure st7565_data where
  height : Nat
  width : Nat
  x_offset : Nat
  y_offset : Nat
  deriving DecidableEq, Repr

/-- A device instance, `const struct device *dev`: opcode table, platform and
configuration. -/
structure device where
  cmds : st7565_cmds
  platform : Platform
  data : st7565_data

/-- The mutable state: the static framebuffer, the trace of platform calls made so far
and the number of `spi_write` calls made so far. -/
structure State where
  framebuffer : List Nat
  trace : List Event
  spi_calls : Nat
  deriving DecidableEq, Repr

/-- `struct display_buffer_descriptor` -/
structure display_buffer_descriptor where
  buf_size : Nat
  width : Nat
  height : Nat
  pitch : Nat
  deriving DecidableEq, Repr

/-- `enum display_pixel_format` -/
inductive display_pixel_format
  | PIXEL_FORMAT_RGB_888
  | PIXEL_FORMAT_MONO01
  | PIXEL_FORMAT_MONO10
  | PIXEL_FORMAT_ARGB_8888
  | PIXEL_FORMAT_RGB_565
  | PIXEL_FORMAT_BGR_565
  deriving DecidableEq, Repr

/-- `enum display_orientation` -/
inductive display_orientation
  | DISPLAY_ORIENTATION_NORMAL
  | DISPLAY_ORIENTATION_ROTATED_90
  | DISPLAY_ORIENTATION_ROTATED_180
  | DISPLAY_ORIENTATION_ROTATED_270
  deriving DecidableEq, Repr

/-- `enum display_screen_info` -/
inductive display_screen_info
  | SCREEN_INFO_MONO_VTILED
  | SCREEN_INFO_MONO_MSB_FIRST
  | SCREEN_INFO_EPD
  | SCREEN_INFO_DOUBLE_BUFFER
  | SCREEN_INFO_X_ALIGNMENT_WIDTH
  deriving DecidableEq, Repr

/-- `struct display_capabilities`; the two bit sets are lists of the bits that are set. -/
structure display_capabilities where
  x_resolution : Nat
  y_resolution : Nat
  supported_pixel_formats : List display_pixel_format
  screen_info : List display_screen_info
  current_pixel_format : display_pixel_format
  current_orientation : display_orientation
  deriving DecidableEq, Repr

/-! ## Platform primitives -/

/-- `gpio_pin_set(port, pin, value)` on one of the two lines. -/
def gpio_pin_set (s : State) (line : Line) (value : Nat) : State :=
  { s with trace := s.trace ++ [Event.gpio_pin_set line value] }

/-- `k_sleep(K_MSEC(ms))` -/
def k_sleep (s : State) (ms : Nat) : State :=
  { s with trace := s.trace ++ [Event.k_sleep ms] }

/-- `spi_write(spi_dev, &spi_config, &tx_bufs)` with one buffer: the bytes go out and
the platform reports a return code. -/
def spi_write (dev : device) (s : State) (buf : List Nat) : State × Int :=
  ({ s with trace := s.trace ++ [Event.spi_write buf], spi_calls := s.spi_calls + 1 },
    dev.platform.spi_write_rc s.spi_calls)

/-- Reading `n` bytes of `mem` from index `off` on, one index at a time; `none` when an
index is outside the array. -/
def read_bytes (mem : List Nat) : Nat → Nat → Option (List Nat)
  | _, 0 => some []
  | off, n + 1 =>
    match mem[off]? with
    | none => none
    | some b =>
      match read_bytes mem (off + 1) n with
      | none => none
      | some rest => some (b :: rest)

/-- `memcpy(dest + off, src, n)`: byte `i` of `src` is stored at index `off + i` of
`dest`, for `i < n`; `none` when a load or a store is outside its array. -/
def memcpy (dest : List Nat) (off : Nat) (src : List Nat) : Nat → Option (List Nat)
  | 0 => some dest
  | n + 1 =>
    match src with
    | [] => none
    | b :: rest =>
      if off < dest.length then memcpy (dest.set off b) (off + 1) rest n else none

/-! ## The driver -/

/-- `st7565_set_cmd` -/
def st7565_set_cmd (s : State) (is_cmd : Nat) : State :=
  gpio_pin_set s Line.cmd_data is_cmd

/-- `st7565_transmit`; the argument is converted to `uint8_t` and the return code of
`spi_write` is dropped. -/
def st7565_transmit (dev : device) (s : State) (cmd : Nat) : State :=
  (spi_write dev (st7565_set_cmd s 1) [cmd % 256]).1

/-- `st7565_reset_display` -/
def st7565_reset_display (s : State) : State :=
  let s := k_sleep s 10
  let s := gpio_pin_set s Line.reset 1
  let s := k_sleep s 60
  let s := gpio_pin_set s Line.reset 0
  k_sleep s 50

/-- `st7565_blanking_on` -/
def st7565_blanking_on (dev : device) (s : State) : State × Int :=
  (st7565_transmit dev s dev.cmds.ST7565_CMD_DISPLAY_OFF, 0)

/-- `st7565_blanking_off` -/
def st7565_blanking_off (dev : device) (s : State) : State × Int :=
  (st7565_transmit dev s dev.cmds.ST7565_CMD_DISPLAY_ON, 0)

/-- `st7565_read` -/
def st7565_read (s : State) : State × Int :=
  (s, -ENOTSUP)

/-- The body of the loop of `st7565_sync` for page counter `p`. -/
def st7565_sync_page (dev : device) (s : State) (p : Nat) : Option State :=
  match pagemap[p]? with
  | none => none
  | some page =>
    let s := st7565_transmit dev s (dev.cmds.ST7565_CMD_SET_PAGE ||| page)
    let s := st7565_transmit dev s
      (dev.cmds.ST7565_CMD_SET_COLUMN_LOWER ||| (ST7565_STARTBYTES &&& 0xf))
    let s := st7565_transmit dev s
      (dev.cmds.ST7565_CMD_SET_COLUMN_UPPER ||| ((ST7565_STARTBYTES >>> 4) &&& 0x0F))
    let s := st7565_set_cmd s 0
    match read_bytes s.framebuffer (p * 128) 128 with
    | none => none
    | some tx_buf => some (spi_write dev s tx_buf).1

/-- `st7565_sync`: `for (uint8_t p = 0; p < sizeof(pagemap); p++)`. -/
def st7565_sync (dev : device) (s : State) : Option State :=
  (List.range pagemap.length).foldlM (st7565_sync_page dev) s

/-- The computation of `first_dest_byte` in `st7565_write`: `x`, `y` and the width are
`uint16_t` promoted to `int`, the product overflows from `2^31` on, and the sum is
converted to `uint32_t`. -/
def first_dest_byte (x y width : Nat) : Option Nat :=
  if y * width < 2 ^ 31 then some ((x + y * width / 8) % 2 ^ 32) else none

/-- `st7565_write` -/
def st7565_write (dev : device) (s : State) (x y : Nat) (desc : display_buffer_descriptor)
    (buf : List Nat) : Option (State × Int) :=
  match first_dest_byte x y dev.data.width with
  | none => none
  | some off =>
    match memcpy s.framebuffer off buf desc.buf_size with
    | none => none
    | some fb =>
      match st7565_sync dev { s with framebuffer := fb } with
      | none => none
      | some s => some (s, 0)

/-- `st7565_get_framebuffer`: always `NULL`. -/
def st7565_get_framebuffer (_dev : device) : Option (List Nat) :=
  none

/-- `st7565_set_brightness` -/
def st7565_set_brightness (s : State) (_brightness : Nat) : State × Int :=
  (s, -ENOTSUP)

/-- `st7565_set_contrast` -/
def st7565_set_contrast (dev : device) (s : State) (contrast : Nat) : State × Int :=
  let s := st7565_transmit dev s dev.cmds.ST7565_CMD_SET_VOLUME_FIRST
  let s := st7565_transmit dev s (dev.cmds.ST7565_CMD_SET_VOLUME_SECOND ||| (contrast &&& 0x3f))
  (s, -ENOTSUP)

/-- `st7565_get_capabilities` -/
def st7565_get_capabilities (dev : device) : display_capabilities where
  x_resolution := dev.data.width
  y_resolution := dev.data.height
  supported_pixel_formats := [display_pixel_format.PIXEL_FORMAT_MONO01]
  current_pixel_format := display_pixel_format.PIXEL_FORMAT_MONO01
  current_orientation := display_orientation.DISPLAY_ORIENTATION_NORMAL
  screen_info := [display_screen_info.SCREEN_INFO_MONO_VTILED]

/-- `st7565_set_pixel_format` -/
def st7565_set_pixel_format (s : State) (pixel_format : display_pixel_format) : State × Int :=
  if pixel_format = display_pixel_format.PIXEL_FORMAT_MONO01 then (s, 0) else (s, -ENOTSUP)

/-- `st7565_set_orientation` -/
def st7565_set_orientation (s : State) (orientation : display_orientation) : State × Int :=
  if orientation = display_orientation.DISPLAY_ORIENTATION_NORMAL then (s, 0)
  else (s, -ENOTSUP)

/-- `st7565_lcd_init` -/
def st7565_lcd_init (dev : device) (s : State) : State :=
  let s := st7565_transmit dev s dev.cmds.ST7565_CMD_INTERNAL_RESET
  let s := st7565_transmit dev s dev.cmds.ST7565_CMD_SET_BIAS_7
  let s := st7565_transmit dev s dev.cmds.ST7565_CMD_SET_ADC_NORMAL
  let s := st7565_transmit dev s dev.cmds.ST7565_CMD_SET_COM_REVERSE
  let s := st7565_transmit dev s dev.cmds.ST7565_CMD_SET_DISP_START_LINE
  let s := st7565_transmit dev s (dev.cmds.ST7565_CMD_SET_POWER_CONTROL ||| 0x4)
  let s := k_sleep s 50
  let s := st7565_transmit dev s (dev.cmds.ST7565_CMD_SET_POWER_CONTROL ||| 0x6)
  let s := k_sleep s 50
  let s := st7565_transmit dev s (dev.cmds.ST7565_CMD_SET_POWER_CONTROL ||| 0x7)
  let s := k_sleep s 10
  let s := st7565_transmit dev s ( dev.cmds.ST7565_CMD_SET_RESISTOR_RATIO ||| 0x7)
  let s := st7565_transmit dev s dev.cmds.ST7565_CMD_DISPLAY_ON
  let s := st7565_transmit dev s dev.cmds.ST7565_CMD_SET_ALLPTS_NORMAL
  (st7565_set_contrast dev s 0x0).1

/-- `st7565_init` -/
def st7565_init (dev : device) (s : State) : State × Int :=
  let s := { s with framebuffer := List.replicate FRAMEBUFFER_SIZE 0x00 }
  if dev.platform.spi_dev = false then (s, -EPERM)
  else if dev.platform.reset_gpio = false then (s, -EPERM)
  else if dev.platform.reset_configure ≠ 0 then (s, - EIO)
  else if dev.platform.cmd_data_gpio = false then (s, -EPERM)
  else if dev.platform.cmd_data_configure ≠ 0 then (s, - EIO)
  else
    let s := st7565_reset_display s
    let s := st7565_lcd_init dev s
    let s := (st7565_blanking_on dev s).1
    (s, 0)

/-! ## Vocabulary of the specification -/

/-- A command on the wire: the command/data line is set to 1 (command) and one byte is
written over the transport. -/
def command (code : Nat) : List Event :=
  [Event.gpio_pin_set Line.cmd_data 1, Event.spi_write [code % 256]]

/-- A data transfer on the wire: the command/data line is set to 0 (data) and the block
is written as one transfer. -/
def data_transfer (bytes : List Nat) : List Event :=
  [Event.gpio_pin_set Line.cmd_data 0, Event.spi_write bytes]

/-- The window `[lo, lo + n)` of a byte sequence. -/
def window (fb : List Nat) (lo n : Nat) : List Nat :=
  (fb.drop lo).take n

/-- The specification's `sendPageData(pageIndex, bytes)` with column start `start`:
`SetPage | pageIndex`, `SetColumnLower | (start & 0xF)`,
`SetColumnUpper | ((start >> 4) & 0xF)`, then the block as one data transfer. -/
def sendPageData (c : st7565_cmds) (start pageIndex : Nat) (bytes : List Nat) : List Event :=
  command (c.ST7565_CMD_SET_PAGE ||| pageIndex) ++
  command (c.ST7565_CMD_SET_COLUMN_LOWER ||| (start &&& 0xF)) ++
  command (c.ST7565_CMD_SET_COLUMN_UPPER ||| ((start >>> 4) &&& 0xF)) ++
  data_transfer bytes

/-- The specification's full-frame transmission with `N` pages of 128 bytes: pages
`0 .. N-1` in increasing order, page `p` carrying `framebuffer[p*128 .. p*128+128)`. -/
def page_transmissions (c : st7565_cmds) (N : Nat) (fb : List Nat) : List Event :=
  (List.range N).flatMap (fun p => sendPageData c ST7565_STARTBYTES p (window fb (p * 128) 128))

/-- The data transfers of a trace: the blocks written right after the command/data line
was set to 0. -/
def data_transfers : List Event → List (List Nat)
  | [] => []
  | Event.gpio_pin_set Line.cmd_data 0 :: Event.spi_write buf :: rest =>
    buf :: data_transfers rest
  | _ :: rest => data_transfers rest

/-- The initialization sequence as the specification lists it: the reset pulse with its
waits, soft reset, bias, ADC, scan direction, start line, the three power stages with
their waits, voltage ratio, DisplayOn and the default contrast 0. -/
def claimed_init_sequence (c : st7565_cmds) : List Event :=
  [Event.k_sleep 10, Event.gpio_pin_set Line.reset 1, Event.k_sleep 60,
    Event.gpio_pin_set Line.reset 0, Event.k_sleep 50] ++
  command c.ST7565_CMD_INTERNAL_RESET ++
  command c.ST7565_CMD_SET_BIAS_7 ++
  command c.ST7565_CMD_SET_ADC_NORMAL ++
  command c.ST7565_CMD_SET_COM_REVERSE ++
  command c.ST7565_CMD_SET_DISP_START_LINE ++
  command (c.ST7565_CMD_SET_POWER_CONTROL ||| 0x4) ++ [Event.k_sleep 50] ++
  command (c.ST7565_CMD_SET_POWER_CONTROL ||| 0x6) ++ [Event.k_sleep 50] ++
  command (c.ST7565_CMD_SET_POWER_CONTROL ||| 0x7) ++ [Event.k_sleep 10] ++
  command ( c.ST7565_CMD_SET_RESISTOR_RATIO ||| 0x7) ++
  command c.ST7565_CMD_DISPLAY_ON ++
  command c.ST7565_CMD_SET_VOLUME_FIRST ++
  command (c.ST7565_CMD_SET_VOLUME_SECOND ||| (0 &&& 0x3F))

/-- The initialization sequence with the two commands the specification's list leaves
out: the all-points-normal command after DisplayOn, and the closing DisplayOff. -/
def init_sequence (c : st7565_cmds) : List Event :=
  [Event.k_sleep 10, Event.gpio_pin_set Line.reset 1, Event.k_sleep 60,
    Event.gpio_pin_set Line.reset 0, Event.k_sleep 50] ++
  command c.ST7565_CMD_INTERNAL_RESET ++
  command c.ST7565_CMD_SET_BIAS_7 ++
  command c.ST7565_CMD_SET_ADC_NORMAL ++
  command c.ST7565_CMD_SET_COM_REVERSE ++
  command c.ST7565_CMD_SET_DISP_START_LINE ++
  command (c.ST7565_CMD_SET_POWER_CONTROL ||| 0x4) ++ [Event.k_sleep 50] ++
  command (c.ST7565_CMD_SET_POWER_CONTROL ||| 0x6) ++ [Event.k_sleep 50] ++
  command (c.ST7565_CMD_SET_POWER_CONTROL ||| 0x7) ++ [Event.k_sleep 10] ++
  command ( c.ST7565_CMD_SET_RESISTOR_RATIO ||| 0x7) ++
  command c.ST7565_CMD_DISPLAY_ON ++
  command c.ST7565_CMD_SET_ALLPTS_NORMAL ++
  command c.ST7565_CMD_SET_VOLUME_FIRST ++
  command (c.ST7565_CMD_SET_VOLUME_SECOND ||| (0 &&& 0x3F)) ++
  command c.ST7565_CMD_DISPLAY_OFF

/-- All resources of `st7565_init` are obtained: the three devices are found and both
pins are configured. -/
def resources_obtained (p : Platform) : Prop :=
  p.spi_dev = true ∧ p.reset_gpio = true ∧ p.reset_configure = 0 ∧
  p.cmd_data_gpio = true ∧ p.cmd_data_configure = 0

/-- The state after `n` successive calls of `st7565_blanking_on`. -/
def blanking_on_times (dev : device) : Nat → State → State
  | 0, s => s
  | n + 1, s => blanking_on_times dev n (st7565_blanking_on dev s).1

/-- A platform on which every resource is obtained and every transfer succeeds. -/
def good_platform : Platform where
  spi_dev := true
  reset_gpio := true
  reset_configure := 0
  cmd_data_gpio := true
  cmd_data_configure := 0
  spi_write_rc := fun _ => 0

/-- A platform on which every resource is obtained and every transfer fails with
`-EIO`. -/
def failing_platform : Platform where
  spi_dev := true
  reset_gpio := true
  reset_configure := 0
  cmd_data_gpio := true
  cmd_data_configure := 0
  spi_write_rc := fun _ => - EIO

/-- A 128 x 64 panel. -/
def dev_128x64 : device := ⟨datasheet_cmds, good_platform, ⟨64, 128, 0, 0⟩⟩

/-- A 128 x 32 panel. -/
def dev_128x32 : device := ⟨datasheet_cmds, good_platform, ⟨32, 128, 0, 0⟩⟩

/-- A 128 x 64 panel behind a transport that fails. -/
def dev_failing : device := ⟨datasheet_cmds, failing_platform, ⟨64, 128, 0, 0⟩⟩

/-- The state at power-up: zeroed framebuffer, nothing emitted yet. -/
def power_up : State := ⟨List.replicate 1024 0, [], 0⟩

/-- The framebuffer of the concrete scenario after the write: bytes `[4, 132)` are 0xFF,
all others zero. -/
def scenario_framebuffer : List Nat :=
  List.replicate 4 0 ++ List.replicate 128 0xFF ++ List.replicate 892 0

/-! ## Auxiliary facts -/

theorem take_succ_set (l : List Nat) (off b : Nat) (h : off < l.length) :
    (l.set off b).take (off + 1) = l.take off ++ [b] := by
  rw [List.take_succ, List.set_take, List.set_eq_of_length_le (by simp)]
  simp [List.getElem?_set, h]

theorem drop_succ_set (l : List Nat) (off b k : Nat) :
    (l.set off b).drop (off + 1 + k) = l.drop (off + 1 + k) := by
  rw [List.drop_set]
  simp
  omega

theorem memcpy_eq (n : Nat) : ∀ (dest : List Nat) (off : Nat) (src : List Nat),
    off + n ≤ dest.length → n ≤ src.length →
    memcpy dest off src n = some (dest.take off ++ src.take n ++ dest.drop (off + n)) := by
  induction n with
  | zero => intro dest off src _ _; simp [memcpy]
  | succ n ih =>
    intro dest off src hd hs
    cases src with
    | nil => simp at hs
    | cons b rest =>
      have hlt : off < dest.length := by omega
      have hs2 : n ≤ rest.length := by simpa using hs
      have hlen : off + 1 + n ≤ (dest.set off b).length := by simp; omega
      simp only [memcpy, hlt, if_true]
      rw [ih (dest.set off b) (off + 1) rest hlen hs2, take_succ_set dest off b hlt,
        drop_succ_set]
      simp [Nat.add_assoc, Nat.add_comm 1 n]

theorem read_bytes_eq (n : Nat) : ∀ (mem : List Nat) (off : Nat),
    off + n ≤ mem.length → read_bytes mem off n = some (window mem off n) := by
  induction n with
  | zero => intro mem off _; simp [read_bytes, window]
  | succ n ih =>
    intro mem off h
    have hlt : off < mem.length := by omega
    simp only [read_bytes, List.getElem?_eq_getElem hlt]
    rw [ih mem (off + 1) (by omega)]
    simp only [window]
    rw [List.drop_eq_getElem_cons hlt, List.take_succ_cons]

theorem transmit_eq (dev : device) (s : State) (cmd : Nat) :
    st7565_transmit dev s cmd =
      ⟨s.framebuffer, s.trace ++ command cmd, s.spi_calls + 1⟩ := by
  simp [st7565_transmit, spi_write, st7565_set_cmd, gpio_pin_set, command]

theorem pagemap_get (p : Nat) (hp : p < 8) : pagemap[p]? = some p := by
  interval_cases p <;> rfl

theorem sync_page_eq (dev : device) (s : State) (p : Nat) (hp : p < 8)
    (hfb : p * 128 + 128 ≤ s.framebuffer.length) :
    st7565_sync_page dev s p =
      some ⟨s.framebuffer,
        s.trace ++ sendPageData dev.cmds ST7565_STARTBYTES p (window s.framebuffer (p * 128) 128),
        s.spi_calls + 4⟩ := by
  simp [st7565_sync_page, pagemap_get p hp, transmit_eq, st7565_set_cmd, gpio_pin_set,
    read_bytes_eq 128 s.framebuffer (p * 128) hfb, spi_write, sendPageData, data_transfer]

theorem sync_fold_eq (dev : device) (n : Nat) : ∀ (s : State), n ≤ 8 →
    s.framebuffer.length = FRAMEBUFFER_SIZE →
    (List.range n).foldlM (st7565_sync_page dev) s =
      some ⟨s.framebuffer, s.trace ++ page_transmissions dev.cmds n s.framebuffer,
        s.spi_calls + 4 * n⟩ := by
  induction n with
  | zero => intro s _ _; simp [page_transmissions]
  | succ n ih =>
    intro s hn hfb
    rw [List.range_succ, List.foldlM_append, ih s (by omega) hfb]
    have h2 : n * 128 + 128 ≤ s.framebuffer.length := by
      rw [hfb]; simp only [FRAMEBUFFER_SIZE]; omega
    have e := sync_page_eq dev ⟨s.framebuffer,
      s.trace ++ page_transmissions dev.cmds n s.framebuffer, s.spi_calls + 4 * n⟩ n
      (by omega) h2
    simp only [Option.bind_eq_bind, Option.some_bind, List.foldlM_cons, List.foldlM_nil, e]
    simp [page_transmissions, List.range_succ, List.flatMap_append, Nat.mul_add, Nat.add_assoc]

theorem sync_eq (dev : device) (s : State) (hfb : s.framebuffer.length = FRAMEBUFFER_SIZE) :
    st7565_sync dev s =
      some ⟨s.framebuffer, s.trace ++ page_transmissions dev.cmds 8 s.framebuffer,
        s.spi_calls + 32⟩ := by
  have h := sync_fold_eq dev 8 s (by omega) hfb
  simpa [st7565_sync, pagemap] using h

theorem first_dest_byte_eq (x y width : Nat) (h : x + y * width / 8 ≤ FRAMEBUFFER_SIZE) :
    first_dest_byte x y width = some (x + y * width / 8) := by
  simp only [FRAMEBUFFER_SIZE] at h
  have h1 : y * width < 2 ^ 31 := by omega
  have h2 : (x + y * width / 8) % 2 ^ 32 = x + y * width / 8 := Nat.mod_eq_of_lt (by omega)
  simp only [first_dest_byte]
  rw [if_pos h1, h2]

theorem write_eq (dev : device) (s : State) (x y : Nat) (desc : display_buffer_descriptor)
    (buf : List Nat) (hfb : s.framebuffer.length = FRAMEBUFFER_SIZE)
    (hsrc : desc.buf_size ≤ buf.length)
    (hwin : x + y * dev.data.width / 8 + desc.buf_size ≤ FRAMEBUFFER_SIZE) :
    st7565_write dev s x y desc buf =
      some (⟨s.framebuffer.take (x + y * dev.data.width / 8) ++ buf.take desc.buf_size ++
              s.framebuffer.drop (x + y * dev.data.width / 8 + desc.buf_size),
            s.trace ++ page_transmissions dev.cmds 8
              (s.framebuffer.take (x + y * dev.data.width / 8) ++ buf.take desc.buf_size ++
                s.framebuffer.drop (x + y * dev.data.width / 8 + desc.buf_size)),
            s.spi_calls + 32⟩, 0) := by
  have hlen : (s.framebuffer.take (x + y * dev.data.width / 8) ++ buf.take desc.buf_size ++
      s.framebuffer.drop (x + y * dev.data.width / 8 + desc.buf_size)).length
        = FRAMEBUFFER_SIZE := by
    simp only [List.length_append, List.length_take, List.length_drop, hfb]
    simp only [FRAMEBUFFER_SIZE] at hwin ⊢
    omega
  simp only [st7565_write]
  rw [first_dest_byte_eq x y dev.data.width (by omega)]
  simp only []
  rw [memcpy_eq desc.buf_size s.framebuffer _ buf (by rw [hfb]; exact hwin) hsrc]
  simp only []
  rw [sync_eq dev _ hlen]

theorem window_of_copy (fb buf : List Nat) (off : Nat) (rest : List Nat)
    (h : off ≤ fb.length) :
    window (fb.take off ++ buf ++ rest) off buf.length = buf := by
  have hl : (fb.take off).length = off := by simp [h]
  simp only [window, List.append_assoc]
  rw [List.drop_append_eq_append_drop, hl, List.drop_eq_nil_of_le (by omega)]
  simp

theorem frame_of_copy (fb buf : List Nat) (off n i : Nat) (hwin : off + n ≤ fb.length)
    (hsrc : n ≤ buf.length) (hi : i < off ∨ off + n ≤ i) :
    (fb.take off ++ buf.take n ++ fb.drop (off + n))[i]? = fb[i]? := by
  have hl1 : (fb.take off).length = off := by simp; omega
  have hl2 : (buf.take n).length = n := by simp [hsrc]
  rcases hi with hi | hi
  · rw [List.append_assoc, List.getElem?_append_left (by omega), List.getElem?_take_of_lt hi]
  · rw [List.getElem?_append_right (by simp [hl1, hl2]; omega), List.getElem?_drop]
    simp only [List.length_append, hl1, hl2]
    congr 1
    omega

theorem data_transfers_sendPageData (c : st7565_cmds) (start p : Nat) (bytes : List Nat)
    (rest : List Event) :
    data_transfers (sendPageData c start p bytes ++ rest) = bytes :: data_transfers rest := by
  simp [sendPageData, command, data_transfer, data_transfers]

theorem data_transfers_flatMap (c : st7565_cmds) (start : Nat) (f : Nat → List Nat)
    (l : List Nat) :
    data_transfers (l.flatMap (fun p => sendPageData c start p (f p))) = l.map f := by
  induction l with
  | nil => simp [data_transfers]
  | cons p l ih => simp [List.flatMap_cons, data_transfers_sendPageData, ih]

theorem data_transfers_page_transmissions (c : st7565_cmds) (n : Nat) (fb : List Nat) :
    data_transfers (page_transmissions c n fb) =
      (List.range n).map (fun p => window fb (p * 128) 128) :=
  data_transfers_flatMap c ST7565_STARTBYTES (fun p => window fb (p * 128) 128) (List.range n)

theorem length_page_transmissions (c : st7565_cmds) (n : Nat) (fb : List Nat) :
    (page_transmissions c n fb).length = 8 * n := by
  induction n with
  | zero => simp [page_transmissions]
  | succ n ih =>
    simp only [page_transmissions] at ih ⊢
    rw [List.range_succ, List.flatMap_append, List.length_append, ih]
    simp [sendPageData, command, data_transfer]
    omega

theorem length_window (fb : List Nat) (lo n : Nat) (h : lo + n ≤ fb.length) :
    (window fb lo n).length = n := by
  simp [window]
  omega

/-! ## The claims -/

/-- C1: memory round trip of `st7565_write`.  For every configured width, every `x`,
every `y` (page-aligned or not) and every payload `buf` with `buf_size = len(buf)` whose
window `[O, O + len(buf))`, `O = x + y * width / 8`, lies inside the 1024-byte
framebuffer, the write returns 0 and reading the window of the framebuffer afterwards
gives `buf` byte for byte. -/
theorem write_round_trip (dev : device) (s : State) (x y : Nat)
    (desc : display_buffer_descriptor) (buf : List Nat)
    (hfb : s.framebuffer.length = FRAMEBUFFER_SIZE)
    (hsz : desc.buf_size = buf.length)
    (hwin : x + y * dev.data.width / 8 + buf.length ≤ s.framebuffer.length) :
    ∃ s1, st7565_write dev s x y desc buf = some (s1, 0) ∧
      read_bytes s1.framebuffer (x + y * dev.data.width / 8) buf.length = some buf := by
  have hw := write_eq dev s x y desc buf hfb (by omega) (by rw [hsz, ← hfb]; exact hwin)
  refine ⟨_, hw, ?_⟩
  simp only [hsz, List.take_length]
  rw [read_bytes_eq _ _ _ (by simp; omega), window_of_copy _ _ _ _ (by omega)]

/-- Witness of C1 on the 128 x 64 panel: three bytes written at `x = 5`, `y = 8`. -/
theorem write_round_trip_witness :
    ∃ s1, st7565_write dev_128x64 power_up 5 8 ⟨3, 3, 8, 3⟩ [1, 2, 3] = some (s1, 0) ∧
      read_bytes s1.framebuffer (5 + 8 * dev_128x64.data.width / 8) [1, 2, 3].length
        = some [1, 2, 3] :=
  write_round_trip dev_128x64 power_up 5 8 ⟨3, 3, 8, 3⟩ [1, 2, 3] 
    (List.length_replicate _ _) rfl
    (by simp only [power_up, dev_128x64, List.length_replicate]; decide)

/-- C2, as stated, fails: on a 128 x 32 panel the claim promises `height / 8 = 4` page
transmissions, but a write followed by a sync makes the sync emit 8 data transfers, and
its trace is not the 4-page transmission. -/
theorem page_count_counterexample :
    ∃ s1 s2, st7565_write dev_128x32 power_up 0 0 ⟨1, 1, 8, 1⟩ [0xFF] = some (s1, 0) ∧
      st7565_sync dev_128x32 s1 = some s2 ∧
      dev_128x32.data.height / 8 = 4 ∧
      (data_transfers (s2.trace.drop s1.trace.length)).length = 8 ∧
      s2.trace ≠ s1.trace ++
        page_transmissions dev_128x32.cmds (dev_128x32.data.height / 8) s1.framebuffer := by
  have hfb : power_up.framebuffer.length = FRAMEBUFFER_SIZE := List.length_replicate _ _
  have hw := write_eq dev_128x32 power_up 0 0 ⟨1, 1, 8, 1⟩ [0xFF] hfb (by decide)
    (by simp only [FRAMEBUFFER_SIZE]; decide)
  refine ⟨_, _, hw, sync_eq dev_128x32 _ ?_, by decide, ?_, ?_⟩
  · simp only [List.length_append, List.length_take, List.length_drop, hfb]
    decide
  · simp only [List.drop_left, data_transfers_page_transmissions, List.length_map,
      List.length_range]
  · intro h
    have h2 := congrArg List.length (List.append_cancel_left h)
    rw [length_page_transmissions, length_page_transmissions] at h2
    revert h2
    decide

/-- C2, amended: for every configuration and every region that lies inside the 1024-byte
framebuffer, `st7565_write` returns 0, has itself emitted the full-frame transmission of
the updated framebuffer, and a following `st7565_sync` emits exactly 8 page transmissions
(whatever the configured height), pages 0..7 in increasing order; page `p` is the three
commands `SetPage | p`, `SetColumnLower | (4 & 0xF)`, `SetColumnUpper | ((4 >> 4) & 0xF)`
followed by one data transfer of the 128 bytes `framebuffer[p*128 .. p*128+128)`. -/
theorem write_then_sync_pages (dev : device) (s : State) (x y : Nat)
    (desc : display_buffer_descriptor) (buf : List Nat)
    (hfb : s.framebuffer.length = FRAMEBUFFER_SIZE)
    (hsrc : desc.buf_size ≤ buf.length)
    (hwin : x + y * dev.data.width / 8 + desc.buf_size ≤ s.framebuffer.length) :
    ∃ s1 s2, st7565_write dev s x y desc buf = some (s1, 0) ∧
      st7565_sync dev s1 = some s2 ∧
      s1.trace = s.trace ++ page_transmissions dev.cmds 8 s1.framebuffer ∧
      s2.trace = s1.trace ++ page_transmissions dev.cmds 8 s1.framebuffer ∧
      s2.framebuffer = s1.framebuffer ∧
      data_transfers (s2.trace.drop s1.trace.length) =
        (List.range 8).map (fun p => window s1.framebuffer (p * 128) 128) ∧
      ∀ p, p < 8 → (window s1.framebuffer (p * 128) 128).length = 128 := by
  have hw := write_eq dev s x y desc buf hfb hsrc (by rw [← hfb]; exact hwin)
  have hlen : (s.framebuffer.take (x + y * dev.data.width / 8) ++ buf.take desc.buf_size ++
      s.framebuffer.drop (x + y * dev.data.width / 8 + desc.buf_size)).length
        = FRAMEBUFFER_SIZE := by
    simp only [List.length_append, List.length_take, List.length_drop]
    omega
  refine ⟨_, _, hw, sync_eq dev _ hlen, rfl, rfl, rfl, ?_, ?_⟩
  · simp only [List.drop_left, data_transfers_page_transmissions]
  · intro p hp
    apply length_window
    simp only [hlen, FRAMEBUFFER_SIZE]
    omega

/-- Witness of the amended C2 on the 128 x 32 panel. -/
theorem write_then_sync_pages_witness :
    ∃ s1 s2, st7565_write dev_128x32 power_up 0 0 ⟨1, 1, 8, 1⟩ [0xFF] = some (s1, 0) ∧
      st7565_sync dev_128x32 s1 = some s2 ∧
      s1.trace = power_up.trace ++ page_transmissions dev_128x32.cmds 8 s1.framebuffer ∧
      s2.trace = s1.trace ++ page_transmissions dev_128x32.cmds 8 s1.framebuffer ∧
      s2.framebuffer = s1.framebuffer ∧
      data_transfers (s2.trace.drop s1.trace.length) =
        (List.range 8).map (fun p => window s1.framebuffer (p * 128) 128) ∧
      ∀ p, p < 8 → (window s1.framebuffer (p * 128) 128).length = 128 :=
  write_then_sync_pages dev_128x32 power_up 0 0 ⟨1, 1, 8, 1⟩ [0xFF]
    (List.length_replicate _ _) (by decide)
    (by simp only [power_up, dev_128x32, List.length_replicate]; decide)

set_option maxRecDepth 20000

theorem scenario_copy :
    power_up.framebuffer.take (4 + 0 * 128 / 8) ++ (List.replicate 128 0xFF).take 128 ++
      power_up.framebuffer.drop (4 + 0 * 128 / 8 + 128) = scenario_framebuffer := by
  decide

theorem scenario_length : scenario_framebuffer.length = FRAMEBUFFER_SIZE := by
  decide

theorem scenario_page_0 :
    window scenario_framebuffer (0 * 128) 128 =
      List.replicate 4 0 ++ List.replicate 124 0xFF := by
  decide

theorem scenario_page_1 :
    window scenario_framebuffer (1 * 128) 128 =
      List.replicate 4 0xFF ++ List.replicate 124 0 := by
  decide

theorem scenario_page_rest : ∀ p, 2 ≤ p → p < 8 →
    window scenario_framebuffer (p * 128) 128 = List.replicate 128 0 := by
  decide

/-- C3: the concrete scenario.  On a 128 x 64 panel with a zeroed 1024-byte framebuffer,
`write(x = 4, y = 0, buf_size = 128, 128 bytes of 0xFF)` returns 0 and leaves bytes
`[0, 4)` zero, bytes `[4, 132)` equal to 0xFF and the rest zero; a following sync emits
8 page bursts, pages 0..7, and the burst of page 0 carries 4 zero bytes followed by 124
bytes 0xFF. -/
theorem concrete_scenario (c : st7565_cmds) (pf : Platform) :
    ∃ s1 s2,
      st7565_write ⟨c, pf, ⟨64, 128, 0, 0⟩⟩ power_up 4 0 ⟨128, 128, 8, 128⟩
        (List.replicate 128 0xFF) = some (s1, 0) ∧
      s1.framebuffer =
        List.replicate 4 0 ++ List.replicate 128 0xFF ++ List.replicate 892 0 ∧
      st7565_sync ⟨c, pf, ⟨64, 128, 0, 0⟩⟩ s1 = some s2 ∧
      s2.framebuffer = s1.framebuffer ∧
      s2.trace = s1.trace ++
        (sendPageData c 4 0 (List.replicate 4 0 ++ List.replicate 124 0xFF) ++
         sendPageData c 4 1 (List.replicate 4 0xFF ++ List.replicate 124 0) ++
         sendPageData c 4 2 (List.replicate 128 0) ++
         sendPageData c 4 3 (List.replicate 128 0) ++
         sendPageData c 4 4 (List.replicate 128 0) ++
         sendPageData c 4 5 (List.replicate 128 0) ++
         sendPageData c 4 6 (List.replicate 128 0) ++
         sendPageData c 4 7 (List.replicate 128 0)) ∧
      (data_transfers (s2.trace.drop s1.trace.length)).length = 8 := by
  have hfb : power_up.framebuffer.length = FRAMEBUFFER_SIZE := List.length_replicate _ _
  have hw := write_eq ⟨c, pf, ⟨64, 128, 0, 0⟩⟩ power_up 4 0 ⟨128, 128, 8, 128⟩
    (List.replicate 128 0xFF) hfb (by simp) (by simp only [FRAMEBUFFER_SIZE]; decide)
  simp only [scenario_copy] at hw
  have hs := sync_eq ⟨c, pf, ⟨64, 128, 0, 0⟩⟩
    ⟨scenario_framebuffer, power_up.trace ++ page_transmissions c 8 scenario_framebuffer,
      power_up.spi_calls + 32⟩ scenario_length
  refine ⟨_, _, hw, rfl, hs, rfl, ?_, ?_⟩
  · have hr : List.range 8 = [0, 1, 2, 3, 4, 5, 6, 7] := by decide
    have e : page_transmissions c 8 scenario_framebuffer =
        sendPageData c 4 0 (List.replicate 4 0 ++ List.replicate 124 0xFF) ++
         sendPageData c 4 1 (List.replicate 4 0xFF ++ List.replicate 124 0) ++
         sendPageData c 4 2 (List.replicate 128 0) ++
         sendPageData c 4 3 (List.replicate 128 0) ++
         sendPageData c 4 4 (List.replicate 128 0) ++
         sendPageData c 4 5 (List.replicate 128 0) ++
         sendPageData c 4 6 (List.replicate 128 0) ++
         sendPageData c 4 7 (List.replicate 128 0) := by
      simp only [page_transmissions, hr, List.flatMap_cons, List.flatMap_nil, scenario_page_0,
        scenario_page_1, scenario_page_rest 2 (by decide) (by decide),
        scenario_page_rest 3 (by decide) (by decide),
        scenario_page_rest 4 (by decide) (by decide),
        scenario_page_rest 5 (by decide) (by decide),
        scenario_page_rest 6 (by decide) (by decide),
        scenario_page_rest 7 (by decide) (by decide),
        ST7565_STARTBYTES, List.append_nil, List.append_assoc]
    show _ ++ page_transmissions c 8 scenario_framebuffer = _
    rw [e]
  · simp only [List.drop_left, data_transfers_page_transmissions, List.length_map,
      List.length_range]

theorem init_eq (dev : device) (s : State) (h : resources_obtained dev.platform) :
    st7565_init dev s =
      (⟨List.replicate FRAMEBUFFER_SIZE 0, s.trace ++ init_sequence dev.cmds,
        s.spi_calls + 14⟩, 0) := by
  obtain ⟨h1, h2, h3, h4, h5⟩ := h
  simp [st7565_init, h1, h2, h3, h4, h5, st7565_reset_display, st7565_lcd_init,
    st7565_set_contrast, st7565_blanking_on, transmit_eq, k_sleep, gpio_pin_set,
    init_sequence]

/-- C4, as stated, fails: a successful run on the 128 x 64 panel returns 0, but what it
emits is not the sequence the claim lists (the all-points-normal command after DisplayOn
and the closing DisplayOff are missing from the list). -/
theorem init_sequence_counterexample :
    resources_obtained dev_128x64.platform ∧
    (st7565_init dev_128x64 power_up).2 = 0 ∧
    (st7565_init dev_128x64 power_up).1.trace ≠
      power_up.trace ++ claimed_init_sequence dev_128x64.cmds := by
  have h : resources_obtained dev_128x64.platform := by
    simp [resources_obtained, dev_128x64, good_platform]
  refine ⟨h, ?_, ?_⟩
  · rw [init_eq dev_128x64 power_up h]
  · rw [init_eq dev_128x64 power_up h]
    intro e
    have e2 := congrArg List.length (List.append_cancel_left e)
    revert e2
    decide

/-- C4, amended: on every run of `st7565_init` on which all resources are obtained, the
call returns 0 and the sequence of control-line actions, waits and commands is exactly:
wait 10 ms; assert reset, wait 60 ms; deassert reset, wait 50 ms; soft reset; bias
select; ADC select; scan-direction select; start-line set; power control with converter
enabled, wait 50 ms; with regulator enabled, wait 50 ms; with follower enabled, wait
10 ms; voltage-ratio set; DisplayOn; all-points-normal; SelectVolume, SetVolume | 0;
DisplayOff. -/
theorem init_sequence_exact (dev : device) (s : State)
    (h : resources_obtained dev.platform) :
    (st7565_init dev s).2 = 0 ∧
    (st7565_init dev s).1.trace = s.trace ++ init_sequence dev.cmds := by
  rw [init_eq dev s h]
  exact ⟨rfl, rfl⟩

/-- Witness of the amended C4 on the 128 x 64 panel. -/
theorem init_sequence_exact_witness :
    resources_obtained dev_128x64.platform ∧
    (st7565_init dev_128x64 power_up).2 = 0 ∧
    (st7565_init dev_128x64 power_up).1.trace =
      power_up.trace ++ init_sequence dev_128x64.cmds :=
  ⟨by simp [resources_obtained, dev_128x64, good_platform],
    init_sequence_exact dev_128x64 power_up
      (by simp [resources_obtained, dev_128x64, good_platform])⟩

/-- C5, as stated, fails: behind a transport whose every write fails with `-EIO`, so that
already the write of the first command fails, `st7565_init` still returns 0 and emits all
14 commands of the sequence. -/
theorem init_transport_failure_counterexample :
    dev_failing.platform.spi_write_rc power_up.spi_calls ≠ 0 ∧
    (st7565_init dev_failing power_up).2 = 0 ∧
    (st7565_init dev_failing power_up).1.trace =
      power_up.trace ++ init_sequence dev_failing.cmds ∧
    (st7565_init dev_failing power_up).1.spi_calls = 14 := by
  have h : resources_obtained dev_failing.platform := by
    simp [resources_obtained, dev_failing, failing_platform]
  rw [init_eq dev_failing power_up h]
  exact ⟨by decide, rfl, rfl, rfl⟩

/-- C5, amended: a transport failure during initialization is not detected.  For every
step `k` of the 14 commands, if the transport write of step `k` fails (and all resources
were obtained), `st7565_init` still returns 0 and has made all 14 transport writes, the
whole command sequence being emitted in order. -/
theorem init_ignores_transport_failure (dev : device) (s : State) (k : Nat)
    (h : resources_obtained dev.platform) (_hk : k < 14)
    (_hfail : dev.platform.spi_write_rc (s.spi_calls + k) ≠ 0) :
    (st7565_init dev s).2 = 0 ∧
    (st7565_init dev s).1.spi_calls = s.spi_calls + 14 ∧
    (st7565_init dev s).1.trace = s.trace ++ init_sequence dev.cmds := by
  rw [init_eq dev s h]
  exact ⟨rfl, rfl, rfl⟩

/-- Witness of the amended C5: the transport fails at step 3. -/
theorem init_ignores_transport_failure_witness :
    dev_failing.platform.spi_write_rc (power_up.spi_calls + 3) ≠ 0 ∧
    (st7565_init dev_failing power_up).2 = 0 ∧
    (st7565_init dev_failing power_up).1.spi_calls = power_up.spi_calls + 14 ∧
    (st7565_init dev_failing power_up).1.trace =
      power_up.trace ++ init_sequence dev_failing.cmds :=
  ⟨by decide,
    init_ignores_transport_failure dev_failing power_up 3
      (by simp [resources_obtained, dev_failing, failing_platform]) (by decide) (by decide)⟩

/-- C6: for every contrast value `v`, `st7565_set_contrast` emits exactly two commands,
`SelectVolume` and then `SetVolume | (v & 0x3F)`, both with the command line asserted,
returns `-ENOTSUP`, and leaves the framebuffer unchanged. -/
theorem set_contrast_emits_and_reports_notsup (dev : device) (s : State) (v : Nat) :
    (st7565_set_contrast dev s v).2 = -ENOTSUP ∧
    (st7565_set_contrast dev s v).1.trace =
      s.trace ++ command dev.cmds.ST7565_CMD_SET_VOLUME_FIRST ++
        command (dev.cmds.ST7565_CMD_SET_VOLUME_SECOND ||| (v &&& 0x3F)) ∧
    (st7565_set_contrast dev s v).1.framebuffer = s.framebuffer := by
  simp [st7565_set_contrast, transmit_eq]

/-- C7: `st7565_set_pixel_format` returns 0 exactly for `PIXEL_FORMAT_MONO01` and
`-ENOTSUP` for every other format; in both cases nothing is emitted (the state is
unchanged) and `st7565_get_capabilities` still reports the monochrome format. -/
theorem set_pixel_format_only_mono (dev : device) (s : State) (fmt : display_pixel_format) :
    ((st7565_set_pixel_format s fmt).2 = 0 ↔
      fmt = display_pixel_format.PIXEL_FORMAT_MONO01) ∧
    (fmt ≠ display_pixel_format.PIXEL_FORMAT_MONO01 →
      (st7565_set_pixel_format s fmt).2 = -ENOTSUP) ∧
    (st7565_set_pixel_format s fmt).1 = s ∧
    (st7565_get_capabilities dev).current_pixel_format =
      display_pixel_format.PIXEL_FORMAT_MONO01 := by
  by_cases h : fmt = display_pixel_format.PIXEL_FORMAT_MONO01
  · simp [st7565_set_pixel_format, h, st7565_get_capabilities]
  · simp [st7565_set_pixel_format, h, st7565_get_capabilities, ENOTSUP]

theorem blanking_on_times_eq (dev : device) (n : Nat) : ∀ s : State,
    blanking_on_times dev n s =
      ⟨s.framebuffer,
        s.trace ++ (List.replicate n (command dev.cmds.ST7565_CMD_DISPLAY_OFF)).flatten,
        s.spi_calls + n⟩ := by
  induction n with
  | zero => intro s; simp [blanking_on_times]
  | succ n ih =>
    intro s
    simp only [blanking_on_times, ih, st7565_blanking_on, transmit_eq]
    simp [List.replicate_succ, Nat.add_comm 1 n, Nat.add_assoc]

/-- C8: blanking is stateless at the protocol level.  For every `n`, `n` calls of
`st7565_blanking_on` emit exactly `n` DisplayOff commands and nothing else, a following
`st7565_blanking_off` emits exactly one DisplayOn command, every call returns 0, and the
framebuffer is unchanged (the configuration is a constant of the device). -/
theorem blanking_stateless (dev : device) (s : State) (n : Nat) :
    (blanking_on_times dev n s).trace =
      s.trace ++ (List.replicate n (command dev.cmds.ST7565_CMD_DISPLAY_OFF)).flatten ∧
    (blanking_on_times dev n s).framebuffer = s.framebuffer ∧
    (st7565_blanking_off dev (blanking_on_times dev n s)).1.trace =
      (blanking_on_times dev n s).trace ++ command dev.cmds.ST7565_CMD_DISPLAY_ON ∧
    (st7565_blanking_off dev (blanking_on_times dev n s)).1.framebuffer = s.framebuffer ∧
    (∀ t : State, (st7565_blanking_on dev t).2 = 0 ∧ (st7565_blanking_off dev t).2 = 0) ∧
    (blanking_on_times dev 2 s).trace =
      s.trace ++ command dev.cmds.ST7565_CMD_DISPLAY_OFF ++
        command dev.cmds.ST7565_CMD_DISPLAY_OFF := by
  rw [blanking_on_times_eq dev n s, blanking_on_times_eq dev 2 s]
  refine ⟨rfl, rfl, ?_, ?_, ?_, ?_⟩
  · simp [st7565_blanking_off, transmit_eq]
  · simp [st7565_blanking_off, transmit_eq]
  · intro t
    simp [st7565_blanking_on, st7565_blanking_off]
  · simp [List.replicate]

/-- C9: frame of `st7565_write`.  For every write whose destination window `[O, O + n)`,
`O = x + y * width / 8`, `n = buf_size`, lies inside the 1024-byte framebuffer (the
source holding at least `n` bytes), every framebuffer byte at an index outside the window
has the same value after the write as before; the framebuffer after the write is exactly
what the copy produced, so the sync the write triggers modified no byte, and neither does
a further sync. -/
theorem write_frame (dev : device) (s : State) (x y : Nat)
    (desc : display_buffer_descriptor) (buf : List Nat)
    (hfb : s.framebuffer.length = FRAMEBUFFER_SIZE)
    (hsrc : desc.buf_size ≤ buf.length)
    (hwin : x + y * dev.data.width / 8 + desc.buf_size ≤ FRAMEBUFFER_SIZE) :
    ∃ s1, st7565_write dev s x y desc buf = some (s1, 0) ∧
      (∀ i, i < x + y * dev.data.width / 8 ∨
          x + y * dev.data.width / 8 + desc.buf_size ≤ i →
        s1.framebuffer[i]? = s.framebuffer[i]?) ∧
      s1.framebuffer.length = FRAMEBUFFER_SIZE ∧
      memcpy s.framebuffer (x + y * dev.data.width / 8) buf desc.buf_size
        = some s1.framebuffer ∧
      ∃ s2, st7565_sync dev s1 = some s2 ∧ s2.framebuffer = s1.framebuffer := by
  have hw := write_eq dev s x y desc buf hfb hsrc hwin
  have hlen : (s.framebuffer.take (x + y * dev.data.width / 8) ++ buf.take desc.buf_size ++
      s.framebuffer.drop (x + y * dev.data.width / 8 + desc.buf_size)).length
        = FRAMEBUFFER_SIZE := by
    simp only [List.length_append, List.length_take, List.length_drop, hfb]
    simp only [FRAMEBUFFER_SIZE] at hwin ⊢
    omega
  refine ⟨_, hw, ?_, hlen, ?_, _, sync_eq dev _ hlen, rfl⟩
  · intro i hi
    exact frame_of_copy s.framebuffer buf _ _ i (by rw [hfb]; exact hwin) hsrc hi
  · exact memcpy_eq desc.buf_size s.framebuffer _ buf (by rw [hfb]; exact hwin) hsrc

/-- Witness of C9 on the 128 x 64 panel: three bytes written at `x = 5`, `y = 8`. -/
theorem write_frame_witness :
    ∃ s1, st7565_write dev_128x64 power_up 5 8 ⟨3, 3, 8, 3⟩ [1, 2, 3] = some (s1, 0) ∧
      (∀ i, i < 5 + 8 * dev_128x64.data.width / 8 ∨
          5 + 8 * dev_128x64.data.width / 8 + 3 ≤ i →
        s1.framebuffer[i]? = power_up.framebuffer[i]?) ∧
      s1.framebuffer.length = FRAMEBUFFER_SIZE ∧
      memcpy power_up.framebuffer (5 + 8 * dev_128x64.data.width / 8) [1, 2, 3] 3
        = some s1.framebuffer ∧
      ∃ s2, st7565_sync dev_128x64 s1 = some s2 ∧ s2.framebuffer = s1.framebuffer :=
  write_frame dev_128x64 power_up 5 8 ⟨3, 3, 8, 3⟩ [1, 2, 3]
    (List.length_replicate _ _) (by decide) (by decide)

end St7565
